import Mathlib

/-!
Verification of the agricalcule weather/disease-risk service (`src/main.py`).

Floats from the Python code are modelled as rationals (`ℚ`): every claim is
about order comparisons and sums, where `ℚ` is a faithful model.  Python
integers become `Int` (scores) or `Nat` (counters, identifiers).  The HTTP
and database effects are modelled as explicit inputs (provider response,
document store) and outputs (effect traces, `Except` for raised exceptions).
-/

namespace Agricalcule

/-- A normalized hourly sample, as built by `fetch_hourly_weather`
(`main.py` lines 74-80). -/
structure HourlySample where
  time : String
  temp : ℚ
  humidity : ℚ
  precipitation : ℚ
  is_wet : Bool
  deriving Repr, DecidableEq

/-- `clamp` (`main.py` line 85): `max(0, min(100, score))`. -/
def clamp (score : Int) : Int :=
  max 0 (min 100 score)

/-- The qualify condition of `score_rouille_brune` (`main.py` line 93):
`15 <= h["temp"] <= 25 and h["humidity"] >= 85`. -/
def brune_qual (h : HourlySample) : Bool :=
  decide (15 ≤ h.temp) && decide (h.temp ≤ 25) && decide (85 ≤ h.humidity)

/-- The per-qualifying-hour score increment of `score_rouille_brune`
(`main.py` lines 95-97): `+5`, plus `+3` when the sample is wet. -/
def brune_add (h : HourlySample) : Int :=
  5 + (if h.is_wet then 3 else 0)

/-- The qualify condition of `score_rouille_noire` (`main.py` line 111):
`18 <= h["temp"] <= 30 and h["humidity"] >= 90`. -/
def noire_qual (h : HourlySample) : Bool :=
  decide (18 ≤ h.temp) && decide (h.temp ≤ 30) && decide (90 ≤ h.humidity)

/-- The per-qualifying-hour score increment of `score_rouille_noire`
(`main.py` line 113): a flat `+6`. -/
def noire_add (_ : HourlySample) : Int := 6

/-- The qualify condition of `score_rouille_jaune` (`main.py` line 127):
`7 <= h["temp"] <= 18 and h["humidity"] >= 87`. -/
def jaune_qual (h : HourlySample) : Bool :=
  decide (7 ≤ h.temp) && decide (h.temp ≤ 18) && decide (87 ≤ h.humidity)

/-- The per-qualifying-hour score increment of `score_rouille_jaune`
(`main.py` lines 129-131): `+5`, plus `+4` when the sample is wet. -/
def jaune_add (h : HourlySample) : Int :=
  5 + (if h.is_wet then 4 else 0)

/-- The qualify condition of `score_septoriose` (`main.py` line 145):
`15 <= h["temp"] <= 20 and h["is_wet"]`. -/
def septo_qual (h : HourlySample) : Bool :=
  decide (15 ≤ h.temp) && decide (h.temp ≤ 20) && h.is_wet

/-- The per-qualifying-hour score increment of `score_septoriose`
(`main.py` line 147): a flat `+4`. -/
def septo_add (_ : HourlySample) : Int := 4

/-- One loop iteration shared by the four scorers (`main.py` lines 92-102
and the three analogous loops).  The state is `(score, consecutive)`.
When the sample qualifies, the counter increments and the per-hour amount
accrues; otherwise the counter resets to `0`.  Afterwards — in either
branch, exactly as in the Python loop body — the run bonus is added
whenever the counter has reached the threshold. -/
def scoreStep (qual : HourlySample → Bool) (add : HourlySample → Int)
    (thresh : Nat) (bonus : Int) (st : Int × Nat) (h : HourlySample) :
    Int × Nat :=
  let st' := if qual h then (st.1 + add h, st.2 + 1) else (st.1, 0)
  if thresh ≤ st'.2 then (st'.1 + bonus, st'.2) else st'

/-- The raw (pre-clamp) accumulated score of `score_rouille_brune`
(`main.py` lines 89-102): window 24, threshold 6, run bonus 20. -/
def raw_rouille_brune (hours : List HourlySample) : Int :=
  ((hours.take 24).foldl (scoreStep brune_qual brune_add 6 20) (0, 0)).1

/-- `score_rouille_brune` (`main.py` lines 88-104). -/
def score_rouille_brune (hours : List HourlySample) : Int :=
  clamp (raw_rouille_brune hours)

/-- The raw (pre-clamp) accumulated score of `score_rouille_noire`
(`main.py` lines 107-118): window 24, threshold 8, run bonus 25. -/
def raw_rouille_noire (hours : List HourlySample) : Int :=
  ((hours.take 24).foldl (scoreStep noire_qual noire_add 8 25) (0, 0)).1

/-- `score_rouille_noire` (`main.py` lines 106-120). -/
def score_rouille_noire (hours : List HourlySample) : Int :=
  clamp (raw_rouille_noire hours)

/-- The raw (pre-clamp) accumulated score of `score_rouille_jaune`
(`main.py` lines 123-136): window 24, threshold 5, run bonus 20. -/
def raw_rouille_jaune (hours : List HourlySample) : Int :=
  ((hours.take 24).foldl (scoreStep jaune_qual jaune_add 5 20) (0, 0)).1

/-- `score_rouille_jaune` (`main.py` lines 122-138). -/
def score_rouille_jaune (hours : List HourlySample) : Int :=
  clamp (raw_rouille_jaune hours)

/-- The raw (pre-clamp) accumulated score of `score_septoriose`
(`main.py` lines 141-152): window 48, threshold 20, run bonus 30. -/
def raw_septoriose (hours : List HourlySample) : Int :=
  ((hours.take 48).foldl (scoreStep septo_qual septo_add 20 30) (0, 0)).1

/-- `score_septoriose` (`main.py` lines 140-154). -/
def score_septoriose (hours : List HourlySample) : Int :=
  clamp (raw_septoriose hours)

/-- `predict_future_risk` (`main.py` lines 156-162): the four scorers,
assembled into a keyed mapping in the dict's insertion order. -/
def predict_future_risk (hourly : List HourlySample) : List (String × Int) :=
  [ ("rouille_brune", score_rouille_brune hourly),
    ("rouille_noire", score_rouille_noire hourly),
    ("rouille_jaune", score_rouille_jaune hourly),
    ("septoriose", score_septoriose hourly) ]

/-- The `rain` sub-object of a provider forecast entry; its `3h` field may
be absent (`item.get("rain", \x7b\x7d).get("3h", 0)` in `main.py` line 72). -/
structure RainInfo where
  threeH : Option ℚ
  deriving Repr, DecidableEq

/-- The `main` sub-object of a provider forecast entry (`main.py`
lines 76-77). -/
structure MainInfo where
  temp : ℚ
  humidity : ℚ
  deriving Repr, DecidableEq

/-- One entry of the provider response's `list` array (`main.py`
lines 71-79): `dt_txt`, `main.temp`, `main.humidity`, optional `rain.3h`. -/
structure ProviderItem where
  dt_txt : String
  main : MainInfo
  rain : Option RainInfo
  deriving Repr, DecidableEq

/-- The weather provider's HTTP response, as consumed by
`fetch_hourly_weather` (`main.py` lines 62-71): a status code and the
parsed `list` array. -/
structure ProviderResponse where
  status_code : Nat
  list : List ProviderItem
  deriving Repr, DecidableEq

/-- `precipitation = item.get("rain", \x7b\x7d).get("3h", 0)` (`main.py`
line 72). -/
def itemPrecipitation (item : ProviderItem) : ℚ :=
  match item.rain with
  | none => 0
  | some r => r.threeH.getD 0

/-- `fetch_hourly_weather` (`main.py` lines 56-82), as a function of the
provider's response: raises (models `HTTPException(500)`) on a non-200
status, otherwise normalizes the first 48 entries of `list`. -/
def fetch_hourly_weather (res : ProviderResponse) :
    Except String (List HourlySample) :=
  if res.status_code ≠ 200 then
    Except.error "Erreur API météo"
  else
    Except.ok ((res.list.take 48).map (fun item =>
      let precipitation := itemPrecipitation item
      { time := item.dt_txt
        temp := item.main.temp
        humidity := item.main.humidity
        precipitation := precipitation
        is_wet := decide (90 ≤ item.main.humidity) || decide (0 < precipitation) }))

/-- The `indicators` bundle written by `update_terrain_with_weather`
(`main.py` lines 176-180). -/
structure TerrainIndicators where
  weather_forecast : List HourlySample
  risks : List (String × Int)
  lastUpdate : String
  deriving DecidableEq

/-- A stored `terrainmongos` document, with the fields `main.py` reads.
`latitude`/`longitude`/`clientId` are optional because the code accesses
them with `.get`. -/
structure TerrainDoc where
  _id : Nat
  terrainId : Int
  clientId : Option Int
  latitude : Option ℚ
  longitude : Option ℚ
  indicators : Option TerrainIndicators
  deriving DecidableEq

/-- Python truthiness of an optional number: `not x` holds exactly when
the value is absent (`None`) or zero. -/
def pyTruthy : Option ℚ → Bool
  | none => false
  | some v => v ≠ 0

/-- The observable effects of one `update_terrain_with_weather` run:
the outbound provider calls (with their coordinates), the document-store
`update_one` calls (target internal id and the `indicators` value set),
and the exception propagated out, if any. -/
structure UpdateOutcome where
  providerCalls : List (ℚ × ℚ)
  writes : List (Nat × TerrainIndicators)
  failed : Option String
  deriving DecidableEq

/-- `update_terrain_with_weather` (`main.py` lines 165-184), as an effect
trace.  `env` is the provider's response to the (single) outbound call and
`now` the current UTC timestamp string.  If `latitude` or `longitude` is
absent or falsy the function returns at once with no effects; otherwise
it calls the provider, and on success computes the risks and issues one
`update_one` write keyed by the document's internal id. -/
def update_terrain_with_weather (env : ProviderResponse) (now : String)
    (terrain : TerrainDoc) : UpdateOutcome :=
  match terrain.latitude, terrain.longitude with
  | some lat, some lon =>
    if lat ≠ 0 ∧ lon ≠ 0 then
      match fetch_hourly_weather env with
      | Except.error e => ⟨[(lat, lon)], [], some e⟩
      | Except.ok hourly_weather =>
        ⟨[(lat, lon)],
         [(terrain._id,
           ⟨hourly_weather, predict_future_risk hourly_weather, now⟩)],
         none⟩
    else ⟨[], [], none⟩
  | _, _ => ⟨[], [], none⟩

/-- Applying one `update_one(\x7b_id: id\x7d, \x7b$set: \x7bindicators: ...\x7d\x7d)`
write to the store: the matching document's `indicators` field is
replaced, everything else is untouched. -/
def applyWrite (store : List TerrainDoc) (w : Nat × TerrainIndicators) :
    List TerrainDoc :=
  store.map (fun d => if d._id = w.1 then { d with indicators := some w.2 } else d)

/-- Applying a trace of `update_one` writes to the store, in order. -/
def applyWrites (store : List TerrainDoc) (ws : List (Nat × TerrainIndicators)) :
    List TerrainDoc :=
  ws.foldl applyWrite store

/-- The terrain document as returned by the query endpoint (`main.py`
lines 221-222): identical to the stored document, with the
storage-internal `_id` rendered as a plain string. -/
structure RenderedTerrain where
  _id : String
  terrainId : Int
  clientId : Option Int
  latitude : Option ℚ
  longitude : Option ℚ
  indicators : Option TerrainIndicators
  deriving DecidableEq

/-- `GET /terrainmongos/\x7bterrain_id\x7d` (`main.py` lines 207-222) after
token verification, as a function of the store contents: `find_one` by
external `terrainId`, 404 when absent, 403 when the record's `clientId`
(coerced with default 0) differs from the caller's id, otherwise the
rendered record.  Errors carry the HTTP status and detail message. -/
def get_terrain (store : List TerrainDoc) (terrain_id : Int) (user_id : Int) :
    Except (Nat × String) RenderedTerrain :=
  match store.find? (fun t => decide (t.terrainId = terrain_id)) with
  | none => Except.error (404, "Terrain introuvable")
  | some terrain =>
    if terrain.clientId.getD 0 ≠ user_id then
      Except.error (403, "Accès interdit")
    else
      Except.ok ⟨toString terrain._id, terrain.terrainId, terrain.clientId,
        terrain.latitude, terrain.longitude, terrain.indicators⟩

/-- The document-store writes issued by the query endpoint: it only ever
calls `find_one`, so the trace is empty for every request. -/
def get_terrain_writes (_store : List TerrainDoc) (_terrain_id : Int)
    (_user_id : Int) : List (Nat × TerrainIndicators) :=
  []

/-! ### Helper lemmas -/

lemma clamp_nonneg (s : Int) : 0 ≤ clamp s :=
  le_max_left 0 _

lemma clamp_le_100 (s : Int) : clamp s ≤ 100 :=
  max_le (by norm_num) (min_le_left 100 s)

lemma clamp_eq_min_of_nonneg {s : Int} (hs : 0 ≤ s) : clamp s = min 100 s := by
  unfold clamp; omega

/-! ### Claims -/

/-- C10: each of the four scorers returns `0` on the empty forecast
series, and the risk aggregator maps all four disease keys to `0`. -/
theorem claim_c10_empty_series :
    score_rouille_brune [] = 0 ∧ score_rouille_noire [] = 0 ∧
    score_rouille_jaune [] = 0 ∧ score_septoriose [] = 0 ∧
    predict_future_risk [] =
      [("rouille_brune", 0), ("rouille_noire", 0),
       ("rouille_jaune", 0), ("septoriose", 0)] := by
  refine ⟨rfl, rfl, rfl, rfl, rfl⟩

/-- C2: every scorer's output lies in `[0, 100]` on every input series. -/
theorem claim_c2_scores_clamped (hours : List HourlySample) :
    (0 ≤ score_rouille_brune hours ∧ score_rouille_brune hours ≤ 100) ∧
    (0 ≤ score_rouille_noire hours ∧ score_rouille_noire hours ≤ 100) ∧
    (0 ≤ score_rouille_jaune hours ∧ score_rouille_jaune hours ≤ 100) ∧
    (0 ≤ score_septoriose hours ∧ score_septoriose hours ≤ 100) :=
  ⟨⟨clamp_nonneg _, clamp_le_100 _⟩, ⟨clamp_nonneg _, clamp_le_100 _⟩,
   ⟨clamp_nonneg _, clamp_le_100 _⟩, ⟨clamp_nonneg _, clamp_le_100 _⟩⟩

/-- C8: the risk aggregator returns exactly the four disease keys, each
bound to the corresponding scorer applied to the same series. -/
theorem claim_c8_aggregator_keys (hourly : List HourlySample) :
    (predict_future_risk hourly).map Prod.fst =
      ["rouille_brune", "rouille_noire", "rouille_jaune", "septoriose"] ∧
    (predict_future_risk hourly).lookup "rouille_brune"
      = some (score_rouille_brune hourly) ∧
    (predict_future_risk hourly).lookup "rouille_noire"
      = some (score_rouille_noire hourly) ∧
    (predict_future_risk hourly).lookup "rouille_jaune"
      = some (score_rouille_jaune hourly) ∧
    (predict_future_risk hourly).lookup "septoriose"
      = some (score_septoriose hourly) := by
  refine ⟨rfl, ?_, ?_, ?_, ?_⟩ <;> rfl

/-- C3: every sample produced by the normalizer satisfies the wetness
invariant: `is_wet` equals (humidity ≥ 90 OR precipitation > 0), with the
values stored in the sample itself. -/
theorem claim_c3_is_wet_invariant (res : ProviderResponse)
    (out : List HourlySample)
    (hok : fetch_hourly_weather res = Except.ok out) :
    ∀ s ∈ out,
      s.is_wet = (decide (90 ≤ s.humidity) || decide (0 < s.precipitation)) := by
  intro s hs
  unfold fetch_hourly_weather at hok
  by_cases h200 : res.status_code ≠ 200
  · simp [h200] at hok
  · simp only [h200, if_false, Except.ok.injEq] at hok
    subst hok
    rcases List.mem_map.mp hs with ⟨item, -, rfl⟩
    rfl

/-- Provider response used to witness C3. -/
def resW3 : ProviderResponse :=
  ⟨200, [⟨"2026-01-01 00:00:00", ⟨20, 95⟩, none⟩]⟩

/-- The sample the normalizer produces from `resW3`. -/
def sampleW3 : HourlySample := ⟨"2026-01-01 00:00:00", 20, 95, 0, true⟩

theorem claim_c3_witness :
    sampleW3.is_wet
      = (decide (90 ≤ sampleW3.humidity) || decide (0 < sampleW3.precipitation)) :=
  claim_c3_is_wet_invariant resW3 [sampleW3] (by rfl) sampleW3 (by simp)

/-- C5: on a 200 response the normalizer returns exactly the first 48
entries of the provider's list, in order, carrying each entry's
timestamp, temperature and humidity, with precipitation taken from
`rain.3h` when present and `0` when absent. -/
theorem claim_c5_normalizer_output (res : ProviderResponse)
    (out : List HourlySample)
    (h200 : res.status_code = 200)
    (hok : fetch_hourly_weather res = Except.ok out) :
    out.length = min 48 res.list.length ∧
    ∀ (i : Nat) (hi : i < out.length) (hj : i < res.list.length),
      (out.get ⟨i, hi⟩).time = (res.list.get ⟨i, hj⟩).dt_txt ∧
      (out.get ⟨i, hi⟩).temp = (res.list.get ⟨i, hj⟩).main.temp ∧
      (out.get ⟨i, hi⟩).humidity = (res.list.get ⟨i, hj⟩).main.humidity ∧
      (out.get ⟨i, hi⟩).precipitation =
        (match (res.list.get ⟨i, hj⟩).rain with
          | none => 0
          | some r => r.threeH.getD 0) := by
  unfold fetch_hourly_weather at hok
  simp only [h200, ne_eq, not_true_eq_false, if_false, Except.ok.injEq] at hok
  subst hok
  constructor
  · simp
  · intro i hi hj
    refine ⟨?_, ?_, ?_, ?_⟩
    · simp only [List.get_eq_getElem, List.getElem_map, List.getElem_take]
    · simp only [List.get_eq_getElem, List.getElem_map, List.getElem_take]
    · simp only [List.get_eq_getElem, List.getElem_map, List.getElem_take]
    · simp only [List.get_eq_getElem, List.getElem_map, List.getElem_take]
      unfold itemPrecipitation
      cases hrain : res.list[i].rain with
      | none => simp [hrain]
      | some r => simp [hrain]

/-- Provider response used to witness C5: one entry with `rain.3h`
present, one with `rain` absent. -/
def resW5 : ProviderResponse :=
  ⟨200, [⟨"a", ⟨10, 50⟩, some ⟨some 2⟩⟩, ⟨"b", ⟨16, 90⟩, none⟩]⟩

/-- The series the normalizer produces from `resW5`. -/
def outW5 : List HourlySample :=
  [⟨"a", 10, 50, 2, true⟩, ⟨"b", 16, 90, 0, true⟩]

theorem claim_c5_witness :
    outW5.length = min 48 resW5.list.length ∧
    (outW5.get ⟨0, by decide⟩).precipitation
      = (match (resW5.list.get ⟨0, by decide⟩).rain with
          | none => 0
          | some r => r.threeH.getD 0) :=
  ⟨(claim_c5_normalizer_output resW5 outW5 rfl rfl).1,
   ((claim_c5_normalizer_output resW5 outW5 rfl rfl).2 0 (by decide)
      (by decide)).2.2.2⟩

/-- C6: a terrain whose latitude or longitude is absent or falsy triggers
no provider call, no store write, no error, and the store is unchanged. -/
theorem claim_c6_skip_without_coords (env : ProviderResponse) (now : String)
    (terrain : TerrainDoc) (store : List TerrainDoc)
    (h : pyTruthy terrain.latitude = false ∨ pyTruthy terrain.longitude = false) :
    (update_terrain_with_weather env now terrain).providerCalls = [] ∧
    (update_terrain_with_weather env now terrain).writes = [] ∧
    (update_terrain_with_weather env now terrain).failed = none ∧
    applyWrites store (update_terrain_with_weather env now terrain).writes
      = store := by
  have hresult : update_terrain_with_weather env now terrain = ⟨[], [], none⟩ := by
    unfold update_terrain_with_weather
    rcases hlat : terrain.latitude with _ | lat <;>
      rcases hlon : terrain.longitude with _ | lon
    · rfl
    · rfl
    · rfl
    · simp only [hlat, hlon, pyTruthy, decide_eq_false_iff_not, not_not] at h
      rcases h with h | h
      · subst h
        simp
      · subst h
        simp
  refine ⟨?_, ?_, ?_, ?_⟩ <;> (rw [hresult]; try rfl)

/-- Terrain without a latitude, used to witness C6. -/
def terrainW6 : TerrainDoc := ⟨1, 10, some 7, none, some 3, none⟩

theorem claim_c6_witness :
    (update_terrain_with_weather ⟨200, []⟩ "now" terrainW6).providerCalls = [] ∧
    (update_terrain_with_weather ⟨200, []⟩ "now" terrainW6).writes = [] ∧
    (update_terrain_with_weather ⟨200, []⟩ "now" terrainW6).failed = none ∧
    applyWrites [terrainW6]
      (update_terrain_with_weather ⟨200, []⟩ "now" terrainW6).writes
      = [terrainW6] :=
  claim_c6_skip_without_coords ⟨200, []⟩ "now" terrainW6 [terrainW6]
    (Or.inl rfl)

/-- C7: the query endpoint returns 404 when no record matches the
external id, 403 when the record's `clientId` (default 0) differs from
the caller's id, and never writes to the store. -/
theorem claim_c7_access_control (store : List TerrainDoc) (tid uid : Int) :
    (store.find? (fun t => decide (t.terrainId = tid)) = none →
      get_terrain store tid uid = Except.error (404, "Terrain introuvable")) ∧
    (∀ t, store.find? (fun t => decide (t.terrainId = tid)) = some t →
      t.clientId.getD 0 ≠ uid →
      get_terrain store tid uid = Except.error (403, "Accès interdit")) ∧
    applyWrites store (get_terrain_writes store tid uid) = store := by
  refine ⟨?_, ?_, rfl⟩
  · intro hnone
    unfold get_terrain
    rw [hnone]
  · intro t hfind hne
    unfold get_terrain
    rw [hfind]
    simp only [ne_eq, hne, not_false_eq_true, if_true]

/-- Stored terrain owned by client 7, used to witness C7. -/
def docW7 : TerrainDoc := ⟨5, 42, some 7, some 1, some 2, none⟩

theorem claim_c7_witness :
    get_terrain [docW7] 42 8 = Except.error (403, "Accès interdit") ∧
    get_terrain [] 42 8 = Except.error (404, "Terrain introuvable") :=
  ⟨(claim_c7_access_control [docW7] 42 8).2.1 docW7 (by rfl) (by decide),
   (claim_c7_access_control [] 42 8).1 rfl⟩

/-! ### Fold lemmas for the scorers -/

lemma scoreStep_fst_ge (q : HourlySample → Bool) (add : HourlySample → Int)
    (t : Nat) (b : Int) (hadd : ∀ h, 0 ≤ add h) (hb : 0 ≤ b)
    (st : Int × Nat) (h : HourlySample) :
    st.1 ≤ (scoreStep q add t b st h).1 := by
  have h1 := hadd h
  unfold scoreStep
  dsimp only
  split <;> split <;> dsimp only <;> omega

lemma foldl_scoreStep_fst_ge (q : HourlySample → Bool) (add : HourlySample → Int)
    (t : Nat) (b : Int) (hadd : ∀ h, 0 ≤ add h) (hb : 0 ≤ b) :
    ∀ (l : List HourlySample) (st : Int × Nat),
      st.1 ≤ (l.foldl (scoreStep q add t b) st).1 := by
  intro l
  induction l with
  | nil => intro st; simp
  | cons h tl ih =>
    intro st
    simp only [List.foldl_cons]
    exact le_trans (scoreStep_fst_ge q add t b hadd hb st h) (ih _)

lemma brune_add_nonneg (h : HourlySample) : 0 ≤ brune_add h := by
  unfold brune_add; split <;> norm_num

lemma noire_add_nonneg (h : HourlySample) : 0 ≤ noire_add h := by
  unfold noire_add; norm_num

lemma jaune_add_nonneg (h : HourlySample) : 0 ≤ jaune_add h := by
  unfold jaune_add; split <;> norm_num

lemma septo_add_nonneg (h : HourlySample) : 0 ≤ septo_add h := by
  unfold septo_add; norm_num

/-- C9: each scorer's raw accumulated score is non-negative on every
series, so the clamp's lower bound never binds: the output is
`min 100 raw`. -/
theorem claim_c9_raw_nonneg (hours : List HourlySample) :
    (0 ≤ raw_rouille_brune hours ∧
      score_rouille_brune hours = min 100 (raw_rouille_brune hours)) ∧
    (0 ≤ raw_rouille_noire hours ∧
      score_rouille_noire hours = min 100 (raw_rouille_noire hours)) ∧
    (0 ≤ raw_rouille_jaune hours ∧
      score_rouille_jaune hours = min 100 (raw_rouille_jaune hours)) ∧
    (0 ≤ raw_septoriose hours ∧
      score_septoriose hours = min 100 (raw_septoriose hours)) := by
  have h1 : 0 ≤ raw_rouille_brune hours :=
    foldl_scoreStep_fst_ge brune_qual brune_add 6 20 brune_add_nonneg
      (by norm_num) (hours.take 24) (0, 0)
  have h2 : 0 ≤ raw_rouille_noire hours :=
    foldl_scoreStep_fst_ge noire_qual noire_add 8 25 noire_add_nonneg
      (by norm_num) (hours.take 24) (0, 0)
  have h3 : 0 ≤ raw_rouille_jaune hours :=
    foldl_scoreStep_fst_ge jaune_qual jaune_add 5 20 jaune_add_nonneg
      (by norm_num) (hours.take 24) (0, 0)
  have h4 : 0 ≤ raw_septoriose hours :=
    foldl_scoreStep_fst_ge septo_qual septo_add 20 30 septo_add_nonneg
      (by norm_num) (hours.take 48) (0, 0)
  exact ⟨⟨h1, clamp_eq_min_of_nonneg h1⟩, ⟨h2, clamp_eq_min_of_nonneg h2⟩,
    ⟨h3, clamp_eq_min_of_nonneg h3⟩, ⟨h4, clamp_eq_min_of_nonneg h4⟩⟩

lemma brune_full_run :
    ∀ (l : List HourlySample) (s : Int) (c : Nat),
      (∀ h ∈ l, brune_qual h = true ∧ h.is_wet = false) →
      l.foldl (scoreStep brune_qual brune_add 6 20) (s, c) =
        (s + 5 * l.length + 20 * ((l.length - min l.length (5 - c) : ℕ) : ℤ),
         c + l.length) := by
  intro l
  induction l with
  | nil => intro s c _; simp
  | cons h tl ih =>
    intro s c hq
    obtain ⟨hqh, hwet⟩ := hq h (List.mem_cons_self h tl)
    have hqt : ∀ x ∈ tl, brune_qual x = true ∧ x.is_wet = false :=
      fun x hx => hq x (List.mem_cons_of_mem h hx)
    simp only [List.foldl_cons]
    by_cases h6 : 6 ≤ c + 1
    · rw [show scoreStep brune_qual brune_add 6 20 (s, c) h = (s + 5 + 20, c + 1)
        from by simp [scoreStep, brune_add, hqh, hwet, h6]]
      rw [ih (s + 5 + 20) (c + 1) hqt]
      simp only [Prod.mk.injEq, List.length_cons]
      constructor <;> omega
    · rw [show scoreStep brune_qual brune_add 6 20 (s, c) h = (s + 5, c + 1)
        from by simp [scoreStep, brune_add, hqh, hwet, h6]]
      rw [ih (s + 5) (c + 1) hqt]
      simp only [Prod.mk.injEq, List.length_cons]
      constructor <;> omega

/-- C1: when the first 24 samples all satisfy rouille_brune's qualify
condition with `is_wet = false`, the score is
`clamp(24*5 + 20*19)`: the base accrues on all 24 hours and the run
bonus re-fires on every hour from the 6th through the 24th. -/
theorem claim_c1_brune_full_window (hours : List HourlySample)
    (hlen : 24 ≤ hours.length)
    (hq : ∀ h ∈ hours.take 24, brune_qual h = true ∧ h.is_wet = false) :
    score_rouille_brune hours = clamp (24 * 5 + 20 * 19) := by
  have hlen24 : (hours.take 24).length = 24 := by
    rw [List.length_take]; omega
  unfold score_rouille_brune raw_rouille_brune
  rw [brune_full_run (hours.take 24) 0 0 hq, hlen24]
  decide

theorem claim_c1_witness :
    score_rouille_brune
        (List.replicate 24 ⟨"2026-01-01 00:00:00", 20, 85, 0, false⟩)
      = clamp (24 * 5 + 20 * 19) :=
  claim_c1_brune_full_window _ (by simp)
    (by
      intro h hm
      have he : h = ⟨"2026-01-01 00:00:00", 20, 85, 0, false⟩ :=
        List.eq_of_mem_replicate (List.take_subset _ _ hm)
      subst he
      exact ⟨by decide, rfl⟩)

/-- A pointwise ordering on `scoreStep` states is preserved by the fold,
and the score gap never shrinks. -/
lemma foldl_scoreStep_mono (q : HourlySample → Bool) (add : HourlySample → Int)
    (t : Nat) (b : Int) (hb : 0 ≤ b) :
    ∀ (l : List HourlySample) (s₁ s₂ : Int) (c₁ c₂ : Nat), c₁ ≤ c₂ →
      (l.foldl (scoreStep q add t b) (s₁, c₁)).1 + (s₂ - s₁)
          ≤ (l.foldl (scoreStep q add t b) (s₂, c₂)).1 ∧
      (l.foldl (scoreStep q add t b) (s₁, c₁)).2
          ≤ (l.foldl (scoreStep q add t b) (s₂, c₂)).2 := by
  intro l
  induction l with
  | nil =>
    intro s₁ s₂ c₁ c₂ hc
    exact ⟨by simp, hc⟩
  | cons h tl ih =>
    intro s₁ s₂ c₁ c₂ hc
    simp only [List.foldl_cons]
    by_cases hq : q h
    · by_cases h₂ : t ≤ c₂ + 1
      · by_cases h₁ : t ≤ c₁ + 1
        · rw [show scoreStep q add t b (s₁, c₁) h = (s₁ + add h + b, c₁ + 1)
            from by simp [scoreStep, hq, h₁]]
          rw [show scoreStep q add t b (s₂, c₂) h = (s₂ + add h + b, c₂ + 1)
            from by simp [scoreStep, hq, h₂]]
          have hih := ih (s₁ + add h + b) (s₂ + add h + b) (c₁ + 1) (c₂ + 1)
            (by omega)
          exact ⟨by linarith [hih.1], hih.2⟩
        · rw [show scoreStep q add t b (s₁, c₁) h = (s₁ + add h, c₁ + 1)
            from by simp [scoreStep, hq, h₁]]
          rw [show scoreStep q add t b (s₂, c₂) h = (s₂ + add h + b, c₂ + 1)
            from by simp [scoreStep, hq, h₂]]
          have hih := ih (s₁ + add h) (s₂ + add h + b) (c₁ + 1) (c₂ + 1)
            (by omega)
          exact ⟨by linarith [hih.1], hih.2⟩
      · have h₁ : ¬ t ≤ c₁ + 1 := by omega
        rw [show scoreStep q add t b (s₁, c₁) h = (s₁ + add h, c₁ + 1)
          from by simp [scoreStep, hq, h₁]]
        rw [show scoreStep q add t b (s₂, c₂) h = (s₂ + add h, c₂ + 1)
          from by simp [scoreStep, hq, h₂]]
        have hih := ih (s₁ + add h) (s₂ + add h) (c₁ + 1) (c₂ + 1) (by omega)
        exact ⟨by linarith [hih.1], hih.2⟩
    · by_cases h0 : t ≤ 0
      · rw [show scoreStep q add t b (s₁, c₁) h = (s₁ + b, 0)
          from by simp [scoreStep, hq, h0]]
        rw [show scoreStep q add t b (s₂, c₂) h = (s₂ + b, 0)
          from by simp [scoreStep, hq, h0]]
        have hih := ih (s₁ + b) (s₂ + b) 0 0 le_rfl
        exact ⟨by linarith [hih.1], hih.2⟩
      · rw [show scoreStep q add t b (s₁, c₁) h = (s₁, 0)
          from by simp [scoreStep, hq, h0]]
        rw [show scoreStep q add t b (s₂, c₂) h = (s₂, 0)
          from by simp [scoreStep, hq, h0]]
        have hih := ih s₁ s₂ 0 0 le_rfl
        exact ⟨by linarith [hih.1], hih.2⟩

/-- Replacing a non-qualifying in-window sample with a qualifying one
raises the raw fold result by at least the qualifying sample's per-hour
increment. -/
lemma foldl_scoreStep_replace (q : HourlySample → Bool)
    (add : HourlySample → Int) (t : Nat) (b : Int) (hb : 0 ≤ b) (ht : 1 ≤ t)
    (w : Nat) (l₁ l₂ : List HourlySample) (old new : HourlySample)
    (hlt : l₁.length < w) (hold : q old = false) (hnew : q new = true) :
    (((l₁ ++ old :: l₂).take w).foldl (scoreStep q add t b) (0, 0)).1 + add new
      ≤ (((l₁ ++ new :: l₂).take w).foldl (scoreStep q add t b) (0, 0)).1 := by
  obtain ⟨k, hk⟩ : ∃ k, w - l₁.length = k + 1 := ⟨w - l₁.length - 1, by omega⟩
  have hx : ∀ x : HourlySample,
      (l₁ ++ x :: l₂).take w = l₁ ++ x :: l₂.take k := by
    intro x
    rw [List.take_append_eq_append_take, List.take_of_length_le (le_of_lt hlt),
      hk]
    simp
  rw [hx old, hx new, List.foldl_append, List.foldl_append]
  have ht0 : ¬ t ≤ 0 := by omega
  simp only [List.foldl_cons]
  generalize List.foldl (scoreStep q add t b) (0, 0) l₁ = st
  rw [show scoreStep q add t b st old = (st.1, 0)
    from by simp [scoreStep, hold, ht0]]
  by_cases hbn : t ≤ st.2 + 1
  · rw [show scoreStep q add t b st new = (st.1 + add new + b, st.2 + 1)
      from by simp [scoreStep, hnew, hbn]]
    have hm := foldl_scoreStep_mono q add t b hb (l₂.take k)
      st.1 (st.1 + add new + b) 0 (st.2 + 1) (by omega)
    linarith [hm.1]
  · rw [show scoreStep q add t b st new = (st.1 + add new, st.2 + 1)
      from by simp [scoreStep, hnew, hbn]]
    have hm := foldl_scoreStep_mono q add t b hb (l₂.take k)
      st.1 (st.1 + add new) 0 (st.2 + 1) (by omega)
    linarith [hm.1]

lemma clamp_replace {a b d : Int} (ha : 0 ≤ a) (hd : 0 < d)
    (hab : a + d ≤ b) :
    clamp a ≤ clamp b ∧ (clamp b < 100 → clamp a < clamp b) := by
  unfold clamp
  constructor
  · omega
  · intro hlt
    omega

lemma brune_add_pos (h : HourlySample) : 0 < brune_add h := by
  unfold brune_add; split <;> norm_num

lemma noire_add_pos (h : HourlySample) : 0 < noire_add h := by
  unfold noire_add; norm_num

lemma jaune_add_pos (h : HourlySample) : 0 < jaune_add h := by
  unfold jaune_add; split <;> norm_num

lemma septo_add_pos (h : HourlySample) : 0 < septo_add h := by
  unfold septo_add; norm_num

/-- C4: for each scorer, replacing an in-window non-qualifying sample
with a qualifying one (all other samples held constant) never decreases
the output, and the output stays strictly increasing except at the
clamp ceiling of 100. -/
theorem claim_c4_run_monotone :
    (∀ (l₁ l₂ : List HourlySample) (old new : HourlySample),
      l₁.length < 24 → brune_qual old = false → brune_qual new = true →
      score_rouille_brune (l₁ ++ old :: l₂)
          ≤ score_rouille_brune (l₁ ++ new :: l₂) ∧
        (score_rouille_brune (l₁ ++ new :: l₂) < 100 →
          score_rouille_brune (l₁ ++ old :: l₂)
            < score_rouille_brune (l₁ ++ new :: l₂))) ∧
    (∀ (l₁ l₂ : List HourlySample) (old new : HourlySample),
      l₁.length < 24 → noire_qual old = false → noire_qual new = true →
      score_rouille_noire (l₁ ++ old :: l₂)
          ≤ score_rouille_noire (l₁ ++ new :: l₂) ∧
        (score_rouille_noire (l₁ ++ new :: l₂) < 100 →
          score_rouille_noire (l₁ ++ old :: l₂)
            < score_rouille_noire (l₁ ++ new :: l₂))) ∧
    (∀ (l₁ l₂ : List HourlySample) (old new : HourlySample),
      l₁.length < 24 → jaune_qual old = false → jaune_qual new = true →
      score_rouille_jaune (l₁ ++ old :: l₂)
          ≤ score_rouille_jaune (l₁ ++ new :: l₂) ∧
        (score_rouille_jaune (l₁ ++ new :: l₂) < 100 →
          score_rouille_jaune (l₁ ++ old :: l₂)
            < score_rouille_jaune (l₁ ++ new :: l₂))) ∧
    (∀ (l₁ l₂ : List HourlySample) (old new : HourlySample),
      l₁.length < 48 → septo_qual old = false → septo_qual new = true →
      score_septoriose (l₁ ++ old :: l₂)
          ≤ score_septoriose (l₁ ++ new :: l₂) ∧
        (score_septoriose (l₁ ++ new :: l₂) < 100 →
          score_septoriose (l₁ ++ old :: l₂)
            < score_septoriose (l₁ ++ new :: l₂))) := by
  refine ⟨?_, ?_, ?_, ?_⟩
  · intro l₁ l₂ old new hlt hold hnew
    exact clamp_replace
      (foldl_scoreStep_fst_ge brune_qual brune_add 6 20 brune_add_nonneg
        (by norm_num) ((l₁ ++ old :: l₂).take 24) (0, 0))
      (brune_add_pos new)
      (foldl_scoreStep_replace brune_qual brune_add 6 20 (by norm_num)
        (by norm_num) 24 l₁ l₂ old new hlt hold hnew)
  · intro l₁ l₂ old new hlt hold hnew
    exact clamp_replace
      (foldl_scoreStep_fst_ge noire_qual noire_add 8 25 noire_add_nonneg
        (by norm_num) ((l₁ ++ old :: l₂).take 24) (0, 0))
      (noire_add_pos new)
      (foldl_scoreStep_replace noire_qual noire_add 8 25 (by norm_num)
        (by norm_num) 24 l₁ l₂ old new hlt hold hnew)
  · intro l₁ l₂ old new hlt hold hnew
    exact clamp_replace
      (foldl_scoreStep_fst_ge jaune_qual jaune_add 5 20 jaune_add_nonneg
        (by norm_num) ((l₁ ++ old :: l₂).take 24) (0, 0))
      (jaune_add_pos new)
      (foldl_scoreStep_replace jaune_qual jaune_add 5 20 (by norm_num)
        (by norm_num) 24 l₁ l₂ old new hlt hold hnew)
  · intro l₁ l₂ old new hlt hold hnew
    exact clamp_replace
      (foldl_scoreStep_fst_ge septo_qual septo_add 20 30 septo_add_nonneg
        (by norm_num) ((l₁ ++ old :: l₂).take 48) (0, 0))
      (septo_add_pos new)
      (foldl_scoreStep_replace septo_qual septo_add 20 30 (by norm_num)
        (by norm_num) 48 l₁ l₂ old new hlt hold hnew)

theorem claim_c4_witness :
    (score_rouille_brune [⟨"w", 0, 0, 0, false⟩]
        ≤ score_rouille_brune [⟨"w", 20, 85, 0, false⟩] ∧
      (score_rouille_brune [⟨"w", 20, 85, 0, false⟩] < 100 →
        score_rouille_brune [⟨"w", 0, 0, 0, false⟩]
          < score_rouille_brune [⟨"w", 20, 85, 0, false⟩])) ∧
    (score_rouille_noire [⟨"w", 0, 0, 0, false⟩]
        ≤ score_rouille_noire [⟨"w", 20, 90, 0, false⟩] ∧
      (score_rouille_noire [⟨"w", 20, 90, 0, false⟩] < 100 →
        score_rouille_noire [⟨"w", 0, 0, 0, false⟩]
          < score_rouille_noire [⟨"w", 20, 90, 0, false⟩])) ∧
    (score_rouille_jaune [⟨"w", 0, 0, 0, false⟩]
        ≤ score_rouille_jaune [⟨"w", 10, 87, 0, false⟩] ∧
      (score_rouille_jaune [⟨"w", 10, 87, 0, false⟩] < 100 →
        score_rouille_jaune [⟨"w", 0, 0, 0, false⟩]
          < score_rouille_jaune [⟨"w", 10, 87, 0, false⟩])) ∧
    (score_septoriose [⟨"w", 0, 0, 0, false⟩]
        ≤ score_septoriose [⟨"w", 18, 95, 0, true⟩] ∧
      (score_septoriose [⟨"w", 18, 95, 0, true⟩] < 100 →
        score_septoriose [⟨"w", 0, 0, 0, false⟩]
          < score_septoriose [⟨"w", 18, 95, 0, true⟩])) :=
  ⟨claim_c4_run_monotone.1 [] [] _ _ (by decide) (by decide) (by decide),
   claim_c4_run_monotone.2.1 [] [] _ _ (by decide) (by decide) (by decide),
   claim_c4_run_monotone.2.2.1 [] [] _ _ (by decide) (by decide) (by decide),
   claim_c4_run_monotone.2.2.2 [] [] _ _ (by decide) (by decide) (by decide)⟩

end Agricalcule
